import Mathlib

/-
Shallow embedding of column_design.py (class ColumnDesign), a library of
closed-form column buckling formulas.  Numbers are modelled as real numbers
together with the IEEE special values infinity, negative infinity and NaN.
Each Python static method is modelled as a function returning
`Except PyErr PyVal × List Msg`: the first component is either a raised,
uncaught exception (`Except.error`) or the returned Python value
(`Except.ok`, which may be the value `None`); the second component is the
list of diagnostic messages printed during the call, in order.

Semantics captured by the model:
  - a division whose operands are both plain Python numbers raises
    ZeroDivisionError on a zero divisor; when either operand is a numpy
    float64 the division is a numpy division, which never raises on a
    zero divisor and instead silently yields an IEEE special value
    (infinity with the sign of the dividend, NaN for zero over zero);
    numpy emits only a RuntimeWarning, which is not a message the model
    tracks;
  - `np.sqrt` returns a numpy float64; therefore the radius of gyration,
    every slenderness ratio computed from it, and every Johnson load is a
    numpy float64, while the Euler critical load and the inputs are plain
    Python numbers.  Which divisions are numpy divisions is determined by
    this dataflow and recorded at each call site (the `np` flag of
    `pyDiv`, and the dynamic-type flag of `slenderness_ratio`, whose `k`
    argument is a plain number when the user calls it directly and a
    numpy float64 when the library calls it with a radius of gyration);
  - `np.sqrt` of a negative plain number yields NaN silently;
  - using `None` as an operand of an arithmetic operation or comparison
    raises TypeError; comparisons involving NaN are False; infinities
    compare as usual;
  - an `except ZeroDivisionError` block catches only ZeroDivisionError;
    a TypeError propagates through it; the `except Exception` block of
    `SF_buckling` catches every exception;
  - `if x:` treats `None`, `False` and `0` as falsy; the special values
    are truthy (NaN included).
-/

set_option maxHeartbeats 1000000

namespace ColumnDesign

/-- Exceptions that the modelled code can raise: Python ZeroDivisionError
and TypeError. -/
inductive PyErr where
  | zeroDivisionError
  | typeError
  deriving DecidableEq

/-- A Python value as produced by the modelled methods: a finite number
(plain Python number or finite numpy float64), a numpy special value
(infinity, negative infinity, NaN), a boolean, or None. -/
inductive PyVal where
  | num (x : ℝ)
  | inf
  | ninf
  | nan
  | bool (b : Bool)
  | none

/-- Diagnostic messages printed by the modelled methods.  The message
printed by the line `print('Buckling critical load = {} N'.format(p_crit))`
is modelled as `criticalLoadReport p_crit`. -/
inductive Msg where
  | invalidLength
  | invalidArea
  | invalidRadiusOfGyration
  | invalidSlendernessRatio
  | invalidInputData
  | eulerFormulaUsed
  | johnsonFormulaUsed
  | criticalLoadReport (p : PyVal)

/-- Result of a modelled call: raised exception or returned value, plus the
printed messages. -/
abbrev PyRes := Except PyErr PyVal × List Msg

/-- Numeric view of a Python value: numbers and special values are
themselves, booleans coerce to 1 and 0, and None is not numeric
(arithmetic on it raises TypeError). -/
def PyVal.asNum : PyVal → Option PyVal
  | .bool b => some (.num (if b then 1 else 0))
  | .none => Option.none
  | v => some v

/-- Python truthiness: None and False are falsy, a finite number is truthy
iff it is nonzero, and the special values (NaN included) are truthy. -/
noncomputable def PyVal.truthy : PyVal → Bool
  | .num x => if x = 0 then false else true
  | .bool b => b
  | .none => false
  | _ => true

/-- Division following Python and numpy semantics.  The `np` flag records
whether the division is a numpy division (either operand a numpy
float64): a zero divisor then silently yields a special value by the sign
of the dividend, while a plain division by zero raises ZeroDivisionError.
A special operand always makes the division a numpy division (the special
values only arise from numpy arithmetic here); a None operand raises
TypeError. -/
noncomputable def pyDiv (a b : PyVal) (np : Bool) : Except PyErr PyVal :=
  match a.asNum, b.asNum with
  | some (.num x), some (.num y) =>
      if y = 0 then
        if np then
          Except.ok (if x > 0 then PyVal.inf
            else if x < 0 then PyVal.ninf else PyVal.nan)
        else Except.error PyErr.zeroDivisionError
      else Except.ok (.num (x / y))
  | some (.num _), some .inf => Except.ok (.num 0)
  | some (.num _), some .ninf => Except.ok (.num 0)
  | some .inf, some (.num y) =>
      Except.ok (if y < 0 then PyVal.ninf else PyVal.inf)
  | some .ninf, some (.num y) =>
      Except.ok (if y < 0 then PyVal.inf else PyVal.ninf)
  | some .inf, some .inf => Except.ok .nan
  | some .inf, some .ninf => Except.ok .nan
  | some .ninf, some .inf => Except.ok .nan
  | some .ninf, some .ninf => Except.ok .nan
  | some .nan, some _ => Except.ok .nan
  | some _, some .nan => Except.ok .nan
  | _, _ => Except.error PyErr.typeError

/-- Multiplication with the IEEE rules for the special values (infinity
times zero is NaN); a None operand raises TypeError. -/
noncomputable def pyMul (a b : PyVal) : Except PyErr PyVal :=
  match a.asNum, b.asNum with
  | some (.num x), some (.num y) => Except.ok (.num (x * y))
  | some (.num x), some .inf =>
      Except.ok (if x > 0 then PyVal.inf
        else if x < 0 then PyVal.ninf else PyVal.nan)
  | some (.num x), some .ninf =>
      Except.ok (if x > 0 then PyVal.ninf
        else if x < 0 then PyVal.inf else PyVal.nan)
  | some .inf, some (.num y) =>
      Except.ok (if y > 0 then PyVal.inf
        else if y < 0 then PyVal.ninf else PyVal.nan)
  | some .ninf, some (.num y) =>
      Except.ok (if y > 0 then PyVal.ninf
        else if y < 0 then PyVal.inf else PyVal.nan)
  | some .inf, some .inf => Except.ok .inf
  | some .inf, some .ninf => Except.ok .ninf
  | some .ninf, some .inf => Except.ok .ninf
  | some .ninf, some .ninf => Except.ok .inf
  | some .nan, some _ => Except.ok .nan
  | some _, some .nan => Except.ok .nan
  | _, _ => Except.error PyErr.typeError

/-- Subtraction with the IEEE rules for the special values; a None operand
raises TypeError. -/
noncomputable def pySub (a b : PyVal) : Except PyErr PyVal :=
  match a.asNum, b.asNum with
  | some (.num x), some (.num y) => Except.ok (.num (x - y))
  | some (.num _), some .inf => Except.ok .ninf
  | some (.num _), some .ninf => Except.ok .inf
  | some .inf, some (.num _) => Except.ok .inf
  | some .ninf, some (.num _) => Except.ok .ninf
  | some .inf, some .inf => Except.ok .nan
  | some .inf, some .ninf => Except.ok .inf
  | some .ninf, some .inf => Except.ok .ninf
  | some .ninf, some .ninf => Except.ok .nan
  | some .nan, some _ => Except.ok .nan
  | some _, some .nan => Except.ok .nan
  | _, _ => Except.error PyErr.typeError

/-- Squaring (`**2`); both infinities square to infinity, NaN to NaN; a
None operand raises TypeError. -/
noncomputable def pySq (a : PyVal) : Except PyErr PyVal :=
  match a.asNum with
  | some (.num x) => Except.ok (.num (x ^ 2))
  | some .inf => Except.ok .inf
  | some .ninf => Except.ok .inf
  | some .nan => Except.ok .nan
  | _ => Except.error PyErr.typeError

/-- The strict comparison `a > b` as a boolean in the IEEE order: any
comparison involving NaN is False, infinity is above every finite number
and negative infinity below; a None operand raises TypeError. -/
noncomputable def pyGt (a b : PyVal) : Except PyErr Bool :=
  match a.asNum, b.asNum with
  | some (.num x), some (.num y) =>
      Except.ok (if x > y then true else false)
  | some (.num _), some .inf => Except.ok false
  | some (.num _), some .ninf => Except.ok true
  | some .inf, some (.num _) => Except.ok true
  | some .ninf, some (.num _) => Except.ok false
  | some .inf, some .inf => Except.ok false
  | some .inf, some .ninf => Except.ok true
  | some .ninf, some .inf => Except.ok false
  | some .ninf, some .ninf => Except.ok false
  | some .nan, some _ => Except.ok false
  | some _, some .nan => Except.ok false
  | _, _ => Except.error PyErr.typeError

/-- Model of `ColumnDesign.area_req_compression(F, S)`: returns `F/S`.
There is no handler, so a zero `S` (the operands are plain numbers)
raises ZeroDivisionError to the caller, printing nothing. -/
noncomputable def area_req_compression (F S : ℝ) : PyRes :=
  if S = 0 then (Except.error PyErr.zeroDivisionError, [])
  else (Except.ok (PyVal.num (F / S)), [])

/-- Model of `ColumnDesign.Euler_buckling_critical_load(E, I, L, C)`:
returns `C*pi^2*E*I/L^2`.  All quantities are plain Python numbers, so a
zero `L**2` raises ZeroDivisionError, which the handler catches, printing
`Invalid length` and returning None. -/
noncomputable def Euler_buckling_critical_load (E I L C : ℝ) : PyRes :=
  if L ^ 2 = 0 then (Except.ok PyVal.none, [Msg.invalidLength])
  else (Except.ok (PyVal.num (C * Real.pi ^ 2 * E * I / L ^ 2)), [])

/-- Model of `ColumnDesign.radius_gyration(I, A)`: returns
`np.sqrt(I/A)`, a numpy float64.  The division `I/A` is a plain division,
so a zero `A` raises ZeroDivisionError, which the handler catches,
printing `Invalid area` and returning None; a negative `I/A` makes
`np.sqrt` silently return NaN. -/
noncomputable def radius_gyration (I A : ℝ) : PyRes :=
  if A = 0 then (Except.ok PyVal.none, [Msg.invalidArea])
  else if I / A < 0 then (Except.ok PyVal.nan, [])
  else (Except.ok (PyVal.num (Real.sqrt (I / A))), [])

/-- Model of `ColumnDesign.slenderness_ratio(L, k)`: returns `L/k` inside
a handler that catches only ZeroDivisionError, printing
`Invalid radius of gyration` and returning None.  The flag `knp` records
the dynamic type of `k`: a plain number on a direct call (a zero then
raises the caught ZeroDivisionError), a numpy float64 when the library
passes a radius of gyration (a zero then silently yields a special
value).  A None `k` raises TypeError, which the handler does not
catch. -/
noncomputable def slenderness_ratio (L k : PyVal) (knp : Bool) : PyRes :=
  match pyDiv L k knp with
  | Except.error PyErr.zeroDivisionError =>
      (Except.ok PyVal.none, [Msg.invalidRadiusOfGyration])
  | Except.error PyErr.typeError => (Except.error PyErr.typeError, [])
  | Except.ok v => (Except.ok v, [])

/-- Model of `ColumnDesign.Euler_unit_buckling_critical_load(E, I, L, C, A)`:
computes `k = radius_gyration(I, A)`, returns
`C*pi^2*E / slenderness_ratio(L, k)**2`.  The slenderness is a numpy
float64 whenever it is a number, so a zero slenderness makes the final
division silently yield a special value (infinity for positive inputs):
the ZeroDivisionError arms mirror the except clause of the source but are
never reached.  A TypeError from a None operand propagates. -/
noncomputable def Euler_unit_buckling_critical_load (E I L C A : ℝ) : PyRes :=
  match radius_gyration I A with
  | (Except.error PyErr.zeroDivisionError, o) =>
      (Except.ok PyVal.none, o ++ [Msg.invalidSlendernessRatio])
  | (Except.error PyErr.typeError, o) => (Except.error PyErr.typeError, o)
  | (Except.ok kv, o1) =>
    match slenderness_ratio (PyVal.num L) kv true with
    | (Except.error PyErr.zeroDivisionError, o2) =>
        (Except.ok PyVal.none, o1 ++ o2 ++ [Msg.invalidSlendernessRatio])
    | (Except.error PyErr.typeError, o2) =>
        (Except.error PyErr.typeError, o1 ++ o2)
    | (Except.ok sv, o2) =>
      match pySq sv with
      | Except.error _ => (Except.error PyErr.typeError, o1 ++ o2)
      | Except.ok s2 =>
        match pyDiv (PyVal.num (C * Real.pi ^ 2 * E)) s2 true with
        | Except.error PyErr.zeroDivisionError =>
            (Except.ok PyVal.none, o1 ++ o2 ++ [Msg.invalidSlendernessRatio])
        | Except.error PyErr.typeError =>
            (Except.error PyErr.typeError, o1 ++ o2)
        | Except.ok v => (Except.ok v, o1 ++ o2)

/-- Model of `ColumnDesign.is_Euler_column(C, E, Sy, L, A, I)`: computes
`k = radius_gyration(I, A)`, `lk = slenderness_ratio(L, k)` (a numpy
quantity: at `k = 0` it is a silent special value, never the caught
zero-division path), `lk1 = np.sqrt(2*pi^2*C*E/Sy)` and returns the
boolean `lk > lk1`.  The division by `Sy` is a plain division evaluated
before the comparison, so a zero `Sy` raises the ZeroDivisionError the
handler catches, printing `Invalid input data` and returning None; a
negative radicand makes `lk1` NaN and the comparison False.  A TypeError
(None `k`) propagates to the caller. -/
noncomputable def is_Euler_column (C E Sy L A I : ℝ) : PyRes :=
  match radius_gyration I A with
  | (Except.error PyErr.zeroDivisionError, o) =>
      (Except.ok PyVal.none, o ++ [Msg.invalidInputData])
  | (Except.error PyErr.typeError, o) => (Except.error PyErr.typeError, o)
  | (Except.ok kv, o1) =>
    match slenderness_ratio (PyVal.num L) kv true with
    | (Except.error PyErr.zeroDivisionError, o2) =>
        (Except.ok PyVal.none, o1 ++ o2 ++ [Msg.invalidInputData])
    | (Except.error PyErr.typeError, o2) => (Except.error PyErr.typeError, o1 ++ o2)
    | (Except.ok lk, o2) =>
      if Sy = 0 then (Except.ok PyVal.none, o1 ++ o2 ++ [Msg.invalidInputData])
      else
        match pyGt lk
          (if 2 * Real.pi ^ 2 * C * E / Sy < 0 then PyVal.nan
           else PyVal.num (Real.sqrt (2 * Real.pi ^ 2 * C * E / Sy))) with
        | Except.error _ => (Except.error PyErr.typeError, o1 ++ o2)
        | Except.ok b => (Except.ok (PyVal.bool b), o1 ++ o2)

/-- Model of `ColumnDesign.Jhonson_unit_buckling_critical_load(E, I, L, C, A, Sy)`:
computes `k = radius_gyration(I, A)`, `a1 = ((Sy*L)/(2*pi*k))**2`,
`a2 = 1/(C*E)` and returns `Sy - a1*a2`.  The denominator `2*pi*k` is a
numpy float64, so at `k = 0` the division into `a1` silently yields a
special value (the caught-zero-division arm mirrors the except clause but
is never reached there); `a2` is a plain division evaluated after `a1`,
so a zero `C*E` raises the ZeroDivisionError the handler catches,
printing `Invalid input data` and returning None.  A TypeError (None `k`)
propagates. -/
noncomputable def Jhonson_unit_buckling_critical_load (E I L C A Sy : ℝ) : PyRes :=
  match radius_gyration I A with
  | (Except.error PyErr.zeroDivisionError, o) =>
      (Except.ok PyVal.none, o ++ [Msg.invalidInputData])
  | (Except.error PyErr.typeError, o) => (Except.error PyErr.typeError, o)
  | (Except.ok kv, o1) =>
    match pyMul (PyVal.num (2 * Real.pi)) kv with
    | Except.error _ => (Except.error PyErr.typeError, o1)
    | Except.ok den =>
      match pyDiv (PyVal.num (Sy * L)) den true with
      | Except.error PyErr.zeroDivisionError =>
          (Except.ok PyVal.none, o1 ++ [Msg.invalidInputData])
      | Except.error PyErr.typeError => (Except.error PyErr.typeError, o1)
      | Except.ok q =>
        match pySq q with
        | Except.error _ => (Except.error PyErr.typeError, o1)
        | Except.ok a1 =>
          if C * E = 0 then (Except.ok PyVal.none, o1 ++ [Msg.invalidInputData])
          else
            match pyMul a1 (PyVal.num (1 / (C * E))) with
            | Except.error _ => (Except.error PyErr.typeError, o1)
            | Except.ok prod =>
              match pySub (PyVal.num Sy) prod with
              | Except.error _ => (Except.error PyErr.typeError, o1)
              | Except.ok u => (Except.ok u, o1)

/-- Model of `ColumnDesign.Jhonson_buckling_critical_load(E, I, L, C, A, Sy)`:
returns `Jhonson_unit_buckling_critical_load(...) * A`.  There is no
handler: an exception from the unit call propagates, and a None unit
value raises TypeError in the multiplication. -/
noncomputable def Jhonson_buckling_critical_load (E I L C A Sy : ℝ) : PyRes :=
  match Jhonson_unit_buckling_critical_load E I L C A Sy with
  | (Except.error e, o) => (Except.error e, o)
  | (Except.ok uv, o) =>
    match pyMul uv (PyVal.num A) with
    | Except.error _ => (Except.error PyErr.typeError, o)
    | Except.ok v => (Except.ok v, o)

/-- Model of `ColumnDesign.SF_compression(S_allow, F, A)`: computes
`S_compr = F/A` and returns `S_allow/S_compr`.  All quantities are plain
numbers, so the handler catches the ZeroDivisionError of a zero `A` or a
zero computed stress, printing `Invalid input data` and returning
None. -/
noncomputable def SF_compression (S_allow F A : ℝ) : PyRes :=
  if A = 0 then (Except.ok PyVal.none, [Msg.invalidInputData])
  else if F / A = 0 then (Except.ok PyVal.none, [Msg.invalidInputData])
  else (Except.ok (PyVal.num (S_allow / (F / A))), [])

/-- Model of the if/else block of `ColumnDesign.SF_buckling`: given the
value returned by `is_Euler_column`, selects the Euler formula when that
value is truthy and the Johnson formula otherwise, printing which formula
is used before computing it. -/
noncomputable def SF_buckling_branch (E I L C A Sy : ℝ) (bv : PyVal) : PyRes :=
  if bv.truthy then
    match Euler_buckling_critical_load E I L C with
    | (r, o) => (r, Msg.eulerFormulaUsed :: o)
  else
    match Jhonson_buckling_critical_load E I L C A Sy with
    | (r, o) => (r, Msg.johnsonFormulaUsed :: o)

/-- Model of `ColumnDesign.SF_buckling(E, I, L, C, A, Sy, F)`: evaluates
`is_Euler_column(C, E, Sy, L, A, I)`, dispatches on its truthiness to the
Euler or Johnson critical load, prints the critical load, and returns
`p_crit/F`.  On the Euler branch `p_crit` is a plain Python number, so a
zero `F` raises a ZeroDivisionError that the `except Exception` handler
catches (printing `Invalid input data`, returning None, with the earlier
messages still printed); on the Johnson branch `p_crit` is a numpy
float64, so `p_crit/F` is a numpy division and a zero `F` silently yields
a special value.  The catch-all handler also catches the TypeError of a
None `p_crit`. -/
noncomputable def SF_buckling (E I L C A Sy F : ℝ) : PyRes :=
  match is_Euler_column C E Sy L A I with
  | (Except.error _, o1) => (Except.ok PyVal.none, o1 ++ [Msg.invalidInputData])
  | (Except.ok bv, o1) =>
    match SF_buckling_branch E I L C A Sy bv with
    | (Except.error _, o2) => (Except.ok PyVal.none, o1 ++ o2 ++ [Msg.invalidInputData])
    | (Except.ok pv, o2) =>
      match pyDiv pv (PyVal.num F) (!bv.truthy) with
      | Except.error _ =>
          (Except.ok PyVal.none,
           o1 ++ o2 ++ [Msg.criticalLoadReport pv, Msg.invalidInputData])
      | Except.ok v =>
          (Except.ok v, o1 ++ o2 ++ [Msg.criticalLoadReport pv])

@[simp] lemma asNum_num (x : ℝ) : (PyVal.num x).asNum = some (PyVal.num x) := rfl

@[simp] lemma asNum_inf : (PyVal.inf).asNum = some PyVal.inf := rfl

@[simp] lemma asNum_ninf : (PyVal.ninf).asNum = some PyVal.ninf := rfl

@[simp] lemma asNum_nan : (PyVal.nan).asNum = some PyVal.nan := rfl

@[simp] lemma asNum_bool (b : Bool) :
    (PyVal.bool b).asNum = some (PyVal.num (if b then 1 else 0)) := rfl

@[simp] lemma asNum_none : (PyVal.none).asNum = Option.none := rfl

@[simp] lemma truthy_num (x : ℝ) :
    (PyVal.num x).truthy = if x = 0 then false else true := rfl

@[simp] lemma truthy_bool (b : Bool) : (PyVal.bool b).truthy = b := rfl

@[simp] lemma truthy_none : (PyVal.none).truthy = false := rfl

lemma pyDiv_num_num (x y : ℝ) (b : Bool) (hy : y ≠ 0) :
    pyDiv (PyVal.num x) (PyVal.num y) b = Except.ok (PyVal.num (x / y)) := by
  simp [pyDiv, hy]

lemma pyDiv_zero_plain (x : ℝ) :
    pyDiv (PyVal.num x) (PyVal.num 0) false =
      Except.error PyErr.zeroDivisionError := by
  simp [pyDiv]

lemma pyDiv_zero_np (x : ℝ) :
    pyDiv (PyVal.num x) (PyVal.num 0) true =
      Except.ok (if x > 0 then PyVal.inf
        else if x < 0 then PyVal.ninf else PyVal.nan) := by
  simp [pyDiv]

lemma pyMul_num_num (x y : ℝ) :
    pyMul (PyVal.num x) (PyVal.num y) = Except.ok (PyVal.num (x * y)) := by
  simp [pyMul]

lemma pySub_num_num (x y : ℝ) :
    pySub (PyVal.num x) (PyVal.num y) = Except.ok (PyVal.num (x - y)) := by
  simp [pySub]

lemma pySq_num (x : ℝ) : pySq (PyVal.num x) = Except.ok (PyVal.num (x ^ 2)) := by
  simp [pySq]

lemma pyGt_num_num (x y : ℝ) :
    pyGt (PyVal.num x) (PyVal.num y) =
      Except.ok (if x > y then true else false) := by
  simp [pyGt]

lemma radius_gyration_eq (I A : ℝ) (hA : A ≠ 0) (hIA : 0 ≤ I / A) :
    radius_gyration I A = (Except.ok (PyVal.num (Real.sqrt (I / A))), []) := by
  simp [radius_gyration, hA, not_lt.mpr hIA]

lemma radius_gyration_zero (I : ℝ) :
    radius_gyration I 0 = (Except.ok PyVal.none, [Msg.invalidArea]) := by
  simp [radius_gyration]

lemma slenderness_ratio_eq (L k : ℝ) (b : Bool) (hk : k ≠ 0) :
    slenderness_ratio (PyVal.num L) (PyVal.num k) b =
      (Except.ok (PyVal.num (L / k)), []) := by
  simp [slenderness_ratio, pyDiv_num_num L k b hk]

lemma slenderness_ratio_zero (L : ℝ) :
    slenderness_ratio (PyVal.num L) (PyVal.num 0) false =
      (Except.ok PyVal.none, [Msg.invalidRadiusOfGyration]) := by
  simp [slenderness_ratio, pyDiv_zero_plain]

lemma slenderness_ratio_zero_np (L : ℝ) :
    slenderness_ratio (PyVal.num L) (PyVal.num 0) true =
      (Except.ok (if L > 0 then PyVal.inf
        else if L < 0 then PyVal.ninf else PyVal.nan), []) := by
  rw [ slenderness_ratio, pyDiv_zero_np]

lemma slenderness_ratio_none (L : ℝ) (b : Bool) :
    slenderness_ratio (PyVal.num L) PyVal.none b =
      (Except.error PyErr.typeError, []) := by
  simp [slenderness_ratio, pyDiv]

lemma Euler_buckling_eq (E I L C : ℝ) (hL : L ≠ 0) :
    Euler_buckling_critical_load E I L C =
      (Except.ok (PyVal.num (C * Real.pi ^ 2 * E * I / L ^ 2)), []) := by
  have h2 : L ^ 2 ≠ 0 := pow_ne_zero 2 hL
  simp [Euler_buckling_critical_load, h2]

lemma Euler_buckling_zero (E I C : ℝ) :
    Euler_buckling_critical_load E I 0 C =
      (Except.ok PyVal.none, [Msg.invalidLength]) := by
  simp [Euler_buckling_critical_load]

lemma is_Euler_column_eq (C E Sy L A I : ℝ) (hA : A ≠ 0)
    (hk : Real.sqrt (I / A) ≠ 0) (hSy : Sy ≠ 0)
    (harg : 0 ≤ 2 * Real.pi ^ 2 * C * E / Sy) :
    is_Euler_column C E Sy L A I =
      (Except.ok (PyVal.bool
        (if L / Real.sqrt (I / A) > Real.sqrt (2 * Real.pi ^ 2 * C * E / Sy)
         then true else false)), []) := by
  have hIA : 0 ≤ I / A := (Real.sqrt_ne_zero'.mp hk).le
  simp [is_Euler_column, radius_gyration_eq I A hA hIA,
    slenderness_ratio_eq L _ true hk, hSy, not_lt.mpr harg, pyGt_num_num]

lemma is_Euler_column_zero_yield (C E L A I : ℝ) (hA : A ≠ 0)
    (hk : Real.sqrt (I / A) ≠ 0) :
    is_Euler_column C E 0 L A I =
      (Except.ok PyVal.none, [Msg.invalidInputData]) := by
  have hIA : 0 ≤ I / A := (Real.sqrt_ne_zero'.mp hk).le
  simp [is_Euler_column, radius_gyration_eq I A hA hIA,
    slenderness_ratio_eq L _ true hk]

lemma is_Euler_column_zero_area (C E Sy L I : ℝ) :
    is_Euler_column C E Sy L 0 I =
      (Except.error PyErr.typeError, [Msg.invalidArea]) := by
  simp [is_Euler_column, radius_gyration_zero, slenderness_ratio_none]

lemma is_Euler_column_zero_inertia (C E Sy L A : ℝ) (hA : 0 < A)
    (hL : 0 < L) (hSy : Sy ≠ 0) (harg : 0 ≤ 2 * Real.pi ^ 2 * C * E / Sy) :
    is_Euler_column C E Sy L A 0 =
      (Except.ok (PyVal.bool true), []) := by
  have h0 : (0:ℝ) / A = 0 := zero_div A
  have hr : radius_gyration 0 A = (Except.ok (PyVal.num 0), []) := by
    simp [radius_gyration, hA.ne']
  have hs : slenderness_ratio (PyVal.num L) (PyVal.num 0) true =
      (Except.ok PyVal.inf, []) := by
    rw [ slenderness_ratio_zero_np, if_pos hL]
  simp [is_Euler_column, hr, hs, hSy, not_lt.mpr harg, pyGt]

lemma Jhonson_unit_eq (E I L C A Sy : ℝ) (hA : A ≠ 0)
    (hk : Real.sqrt (I / A) ≠ 0) (hCE : C * E ≠ 0) :
    Jhonson_unit_buckling_critical_load E I L C A Sy =
      (Except.ok (PyVal.num
        (Sy - (Sy * L / (2 * Real.pi * Real.sqrt (I / A))) ^ 2 * (1 / (C * E)))),
       []) := by
  have hIA : 0 ≤ I / A := (Real.sqrt_ne_zero'.mp hk).le
  have h2 : 2 * Real.pi * Real.sqrt (I / A) ≠ 0 :=
    mul_ne_zero (mul_ne_zero two_ne_zero Real.pi_ne_zero) hk
  simp [Jhonson_unit_buckling_critical_load, radius_gyration_eq I A hA hIA,
    pyMul_num_num, pyDiv_num_num _ _ true h2, pySq_num, pyMul_num_num,
    pySub_num_num, hCE]

lemma Jhonson_unit_zero_CE (E I L C A Sy : ℝ) (hA : A ≠ 0)
    (hk : Real.sqrt (I / A) ≠ 0) (hCE : C * E = 0) :
    Jhonson_unit_buckling_critical_load E I L C A Sy =
      (Except.ok PyVal.none, [Msg.invalidInputData]) := by
  have hIA : 0 ≤ I / A := (Real.sqrt_ne_zero'.mp hk).le
  have h2 : 2 * Real.pi * Real.sqrt (I / A) ≠ 0 :=
    mul_ne_zero (mul_ne_zero two_ne_zero Real.pi_ne_zero) hk
  simp [Jhonson_unit_buckling_critical_load, radius_gyration_eq I A hA hIA,
    pyMul_num_num, pyDiv_num_num _ _ true h2, pySq_num, hCE]

lemma Jhonson_unit_zero_area (E I L C Sy : ℝ) :
    Jhonson_unit_buckling_critical_load E I L C 0 Sy =
      (Except.error PyErr.typeError, [Msg.invalidArea]) := by
  simp [Jhonson_unit_buckling_critical_load, radius_gyration_zero, pyMul]

lemma Jhonson_unit_zero_inertia (E L C A Sy : ℝ) (hA : 0 < A)
    (hSyL : 0 < Sy * L) (hCE : 0 < C * E) :
    Jhonson_unit_buckling_critical_load E 0 L C A Sy =
      (Except.ok PyVal.ninf, []) := by
  have hr : radius_gyration 0 A = (Except.ok (PyVal.num 0), []) := by
    simp [radius_gyration, hA.ne']
  have hmul : pyMul (PyVal.num (2 * Real.pi)) (PyVal.num 0) =
      Except.ok (PyVal.num 0) := by
    rw [pyMul_num_num, mul_zero]
  have hdiv : pyDiv (PyVal.num (Sy * L)) (PyVal.num 0) true =
      Except.ok PyVal.inf := by
    rw [pyDiv_zero_np, if_pos hSyL]
  have hprod : pyMul PyVal.inf (PyVal.num (1 / (C * E))) =
      Except.ok PyVal.inf := by
    have h1 : (1:ℝ) / (C * E) > 0 := by positivity
    simp only [pyMul, asNum_inf, asNum_num]
    rw [if_pos h1]
  simp only [Jhonson_unit_buckling_critical_load, hr, hmul, hdiv, pySq,
    asNum_inf, if_neg hCE.ne', hprod, pySub, asNum_num]

lemma Jhonson_buckling_eq (E I L C A Sy : ℝ) (hA : A ≠ 0)
    (hk : Real.sqrt (I / A) ≠ 0) (hCE : C * E ≠ 0) :
    Jhonson_buckling_critical_load E I L C A Sy =
      (Except.ok (PyVal.num
        ((Sy - (Sy * L / (2 * Real.pi * Real.sqrt (I / A))) ^ 2 * (1 / (C * E)))
          * A)), []) := by
  simp [Jhonson_buckling_critical_load, Jhonson_unit_eq E I L C A Sy hA hk hCE,
    pyMul_num_num]

/-- C2: for every positive `C`, `E`, `Sy`, `L`, `A`, `I`, the method
`is_Euler_column` returns (printing nothing) the boolean `lk > lk1` where
`k = sqrt(I/A)`, `lk = L/k` and `lk1 = sqrt(2*pi^2*C*E/Sy)`. -/
theorem C2_is_Euler_column_formula (C E Sy L A I : ℝ)
    (hC : 0 < C) (hE : 0 < E) (hSy : 0 < Sy) (hL : 0 < L) (hA : 0 < A)
    (hI : 0 < I) :
    ∃ b : Bool,
      is_Euler_column C E Sy L A I = (Except.ok (PyVal.bool b), []) ∧
      (b = true ↔
        L / Real.sqrt (I / A) > Real.sqrt (2 * Real.pi ^ 2 * C * E / Sy)) := by
  have hk : Real.sqrt (I / A) ≠ 0 :=
    Real.sqrt_ne_zero'.mpr (div_pos hI hA)
  have harg : 0 ≤ 2 * Real.pi ^ 2 * C * E / Sy := by positivity
  refine ⟨_, is_Euler_column_eq C E Sy L A I hA.ne' hk hSy.ne' harg, ?_⟩
  by_cases h :
      L / Real.sqrt (I / A) > Real.sqrt (2 * Real.pi ^ 2 * C * E / Sy) <;>
    simp [h]

/-- Witness for C2 at `C = E = Sy = L = A = I = 1`. -/
theorem C2_witness :
    (0:ℝ) < 1 ∧
    ∃ b : Bool,
      is_Euler_column 1 1 1 1 1 1 = (Except.ok (PyVal.bool b), []) ∧
      (b = true ↔
        (1:ℝ) / Real.sqrt (1 / 1) > Real.sqrt (2 * Real.pi ^ 2 * 1 * 1 / 1)) :=
  ⟨one_pos, C2_is_Euler_column_formula 1 1 1 1 1 1 one_pos one_pos one_pos
    one_pos one_pos one_pos⟩

/-- C4: for every `L ≠ 0`, `Euler_buckling_critical_load` returns
`C*pi^2*E*I/L^2`; when `L = 0` it takes the zero-division failure path,
printing `Invalid length` and producing no number; and at
`E = 200e9, I = 8e-6, L = 2, C = 1` the result is `400000*pi^2`, which
lies strictly between `3947840` and `3947843` (approximately
`3947841.76`). -/
theorem C4_Euler_critical_load (E I L C : ℝ) :
    (L ≠ 0 → Euler_buckling_critical_load E I L C =
      (Except.ok (PyVal.num (C * Real.pi ^ 2 * E * I / L ^ 2)), [])) ∧
    (L = 0 → Euler_buckling_critical_load E I L C =
      (Except.ok PyVal.none, [Msg.invalidLength])) ∧
    Euler_buckling_critical_load 200000000000 (8 / 1000000) 2 1 =
      (Except.ok (PyVal.num (400000 * Real.pi ^ 2)), []) ∧
    3947840 < 400000 * Real.pi ^ 2 ∧ 400000 * Real.pi ^ 2 < (3947843:ℝ) := by
  refine ⟨fun hL => Euler_buckling_eq E I L C hL,
    fun hL => by rw [hL]; exact Euler_buckling_zero E I C, ?_, ?_, ?_⟩
  · rw [Euler_buckling_eq 200000000000 (8 / 1000000) 2 1 two_ne_zero]
    have h : (1 * Real.pi ^ 2 * 200000000000 * (8 / 1000000) / 2 ^ 2 : ℝ)
        = 400000 * Real.pi ^ 2 := by ring
    rw [h]
  · nlinarith [Real.pi_gt_d6, Real.pi_pos]
  · nlinarith [Real.pi_lt_d6, Real.pi_pos]

/-- Witness for C4 at `L = 2` and `L = 0`. -/
theorem C4_witness :
    (2:ℝ) ≠ 0 ∧
    Euler_buckling_critical_load 1 1 2 1 =
      (Except.ok (PyVal.num (1 * Real.pi ^ 2 * 1 * 1 / 2 ^ 2)), []) ∧
    Euler_buckling_critical_load 1 1 0 1 =
      (Except.ok PyVal.none, [Msg.invalidLength]) :=
  ⟨two_ne_zero, (C4_Euler_critical_load 1 1 2 1).1 two_ne_zero,
    (C4_Euler_critical_load 1 1 0 1).2.1 rfl⟩

/-- C6: for every `S ≠ 0`, `area_req_compression` returns exactly `F/S`,
and the call `area_req_compression 100 0` raises ZeroDivisionError to the
caller (it has no handler). -/
theorem C6_area_req (F S : ℝ) :
    (S ≠ 0 → area_req_compression F S = (Except.ok (PyVal.num (F / S)), [])) ∧
    area_req_compression 100 0 = (Except.error PyErr.zeroDivisionError, []) := by
  constructor
  · intro hS
    simp [area_req_compression, hS]
  · simp [area_req_compression]

/-- Witness for C6 at `F = 100`, `S = 2`. -/
theorem C6_witness :
    (2:ℝ) ≠ 0 ∧
    area_req_compression 100 2 = (Except.ok (PyVal.num (100 / 2)), []) ∧
    area_req_compression 100 0 = (Except.error PyErr.zeroDivisionError, []) :=
  ⟨two_ne_zero, (C6_area_req 100 2).1 two_ne_zero, (C6_area_req 100 0).2⟩

/-- C3: for every positive `E`, `I`, `L`, `C`, `A`, `Sy`, the method
`Jhonson_buckling_critical_load` returns the Johnson unit critical load
`Sy - (Sy*L/(2*pi*k))^2 * (1/(C*E))` (with `k = sqrt(I/A)`) multiplied by
`A`; and when the unit-load call fails, the failure is propagated to the
caller: an exception from the unit call passes through unchanged, and a
None unit value (its caught zero-division failure) raises TypeError in
the multiplication by `A`. -/
theorem C3_johnson_load (E I L C A Sy : ℝ) :
    (0 < E → 0 < I → 0 < L → 0 < C → 0 < A → 0 < Sy →
      Jhonson_buckling_critical_load E I L C A Sy =
        (Except.ok (PyVal.num
          ((Sy - (Sy * L / (2 * Real.pi * Real.sqrt (I / A))) ^ 2 * (1 / (C * E)))
            * A)), [])) ∧
    (∀ e o, Jhonson_unit_buckling_critical_load E I L C A Sy = (Except.error e, o) →
      Jhonson_buckling_critical_load E I L C A Sy = (Except.error e, o)) ∧
    (∀ o, Jhonson_unit_buckling_critical_load E I L C A Sy =
        (Except.ok PyVal.none, o) →
      Jhonson_buckling_critical_load E I L C A Sy =
        (Except.error PyErr.typeError, o)) := by
  refine ⟨fun hE hI hL hC hA hSy => ?_, fun e o h => ?_, fun o h => ?_⟩
  · exact Jhonson_buckling_eq E I L C A Sy hA.ne'
      (Real.sqrt_ne_zero'.mpr (div_pos hI hA)) (mul_pos hC hE).ne'
  · simp [Jhonson_buckling_critical_load, h]
  · simp [Jhonson_buckling_critical_load, h, pyMul]

/-- Witness for C3: the formula at all-ones input, and failure propagation
at `C = 0` (where the unit call catches its zero division, returns None,
and the multiplication by `A` raises TypeError). -/
theorem C3_witness :
    (0:ℝ) < 1 ∧
    Jhonson_buckling_critical_load 1 1 1 1 1 1 =
      (Except.ok (PyVal.num
        ((1 - (1 * 1 / (2 * Real.pi * Real.sqrt (1 / 1))) ^ 2 * (1 / (1 * 1)))
          * 1)), []) ∧
    Jhonson_unit_buckling_critical_load 1 1 1 0 1 1 =
      (Except.ok PyVal.none, [Msg.invalidInputData]) ∧
    Jhonson_buckling_critical_load 1 1 1 0 1 1 =
      (Except.error PyErr.typeError, [Msg.invalidInputData]) := by
  have hk : Real.sqrt ((1:ℝ) / 1) ≠ 0 := by
    rw [div_one, Real.sqrt_one]
    exact one_ne_zero
  have hunit : Jhonson_unit_buckling_critical_load 1 1 1 0 1 1 =
      (Except.ok PyVal.none, [Msg.invalidInputData]) :=
    Jhonson_unit_zero_CE 1 1 1 0 1 1 one_ne_zero hk (by norm_num)
  exact ⟨one_pos,
    (C3_johnson_load 1 1 1 1 1 1).1 one_pos one_pos one_pos one_pos one_pos
      one_pos,
    hunit,
    (C3_johnson_load 1 1 1 0 1 1).2.2 _ hunit⟩

lemma sqrt_one_one_ne : Real.sqrt ((1:ℝ) / 1) ≠ 0 := by
  rw [div_one, Real.sqrt_one]
  exact one_ne_zero

lemma is_Euler_ten :
    is_Euler_column 1 1 1 10 1 1 = (Except.ok (PyVal.bool true), []) := by
  rw [is_Euler_column_eq 1 1 1 10 1 1 one_ne_zero sqrt_one_one_ne one_ne_zero
    (by positivity)]
  have e1 : Real.sqrt ((1:ℝ) / 1) = 1 := by
    rw [div_one]
    exact Real.sqrt_one
  have e2 : (2 * Real.pi ^ 2 * 1 * 1 / 1 : ℝ) = 2 * Real.pi ^ 2 := by ring
  have hlt : Real.sqrt (2 * Real.pi ^ 2) < 10 :=
    (Real.sqrt_lt' (by norm_num)).mpr (by nlinarith [Real.pi_lt_d2, Real.pi_pos])
  have hcond : (10:ℝ) / Real.sqrt (1 / 1) >
      Real.sqrt (2 * Real.pi ^ 2 * 1 * 1 / 1) := by
    rw [e1, e2, div_one]
    exact hlt
  rw [if_pos hcond]

lemma is_Euler_one :
    is_Euler_column 1 1 1 1 1 1 = (Except.ok (PyVal.bool false), []) := by
  rw [is_Euler_column_eq 1 1 1 1 1 1 one_ne_zero sqrt_one_one_ne one_ne_zero
    (by positivity)]
  have e1 : Real.sqrt ((1:ℝ) / 1) = 1 := by
    rw [div_one]
    exact Real.sqrt_one
  have e2 : (2 * Real.pi ^ 2 * 1 * 1 / 1 : ℝ) = 2 * Real.pi ^ 2 := by ring
  have hge : (1:ℝ) ≤ Real.sqrt (2 * Real.pi ^ 2) :=
    (Real.le_sqrt' one_pos).mpr (by nlinarith [Real.pi_gt_three])
  have hcond : ¬ ((1:ℝ) / Real.sqrt (1 / 1) >
      Real.sqrt (2 * Real.pi ^ 2 * 1 * 1 / 1)) := by
    rw [e1, e2, div_one]
    exact not_lt.mpr hge
  rw [if_neg hcond]

/-- C7: for fixed positive `C`, `E`, `Sy`, `A`, `I`, the regime decision
`is_Euler_column` is monotone in the length: if it returns True at `L1`
and `L1 < L2`, it also returns True at `L2`. -/
theorem C7_is_Euler_monotone (C E Sy A I L1 L2 : ℝ)
    (hC : 0 < C) (hE : 0 < E) (hSy : 0 < Sy) (hA : 0 < A) (hI : 0 < I)
    (hL : L1 < L2)
    (h1 : (is_Euler_column C E Sy L1 A I).1 = Except.ok (PyVal.bool true)) :
    (is_Euler_column C E Sy L2 A I).1 = Except.ok (PyVal.bool true) := by
  have hkpos : 0 < Real.sqrt (I / A) := Real.sqrt_pos.mpr (div_pos hI hA)
  have harg : 0 ≤ 2 * Real.pi ^ 2 * C * E / Sy := by positivity
  rw [is_Euler_column_eq C E Sy L1 A I hA.ne' hkpos.ne' hSy.ne' harg] at h1
  rw [is_Euler_column_eq C E Sy L2 A I hA.ne' hkpos.ne' hSy.ne' harg]
  by_cases hgt :
      L1 / Real.sqrt (I / A) > Real.sqrt (2 * Real.pi ^ 2 * C * E / Sy)
  · have h2 : L2 / Real.sqrt (I / A) >
        Real.sqrt (2 * Real.pi ^ 2 * C * E / Sy) :=
      hgt.trans ((div_lt_div_iff_of_pos_right hkpos).mpr hL)
    simp [h2]
  · rw [if_neg hgt] at h1
    simp at h1

/-- Witness for C7 at unit parameters with `L1 = 10 < L2 = 20`. -/
theorem C7_witness :
    (0:ℝ) < 1 ∧ (10:ℝ) < 20 ∧
    (is_Euler_column 1 1 1 10 1 1).1 = Except.ok (PyVal.bool true) ∧
    (is_Euler_column 1 1 1 20 1 1).1 = Except.ok (PyVal.bool true) := by
  have h1 : (is_Euler_column 1 1 1 10 1 1).1 = Except.ok (PyVal.bool true) := by
    rw [is_Euler_ten]
  exact ⟨one_pos, by norm_num, h1,
    C7_is_Euler_monotone 1 1 1 1 1 10 20 one_pos one_pos one_pos one_pos
      one_pos (by norm_num) h1⟩

/-- C1: whenever `is_Euler_column` returns a boolean `b` and the critical
load selected by `b` (Euler when `b` is true, Johnson when `b` is false)
computes a number `p`, `SF_buckling` returns `p/F` and announces exactly
the formula matching `b`: the dispatch never diverges from the
predicate. -/
theorem C1_SF_buckling_dispatch (E I L C A Sy F : ℝ) (b : Bool) (p : ℝ)
    (ob op : List Msg)
    (hb : is_Euler_column C E Sy L A I = (Except.ok (PyVal.bool b), ob))
    (hp : cond b (Euler_buckling_critical_load E I L C)
            (Jhonson_buckling_critical_load E I L C A Sy) =
          (Except.ok (PyVal.num p), op))
    (hF : F ≠ 0) :
    SF_buckling E I L C A Sy F =
      (Except.ok (PyVal.num (p / F)),
       ob ++ (cond b Msg.eulerFormulaUsed Msg.johnsonFormulaUsed :: op)
          ++ [Msg.criticalLoadReport (PyVal.num p)]) := by
  cases b
  · rw [Bool.cond_false] at hp
    simp [SF_buckling, SF_buckling_branch, hb, hp, hF, pyDiv_num_num]
  · rw [Bool.cond_true] at hp
    simp [SF_buckling, SF_buckling_branch, hb, hp, hF, pyDiv_num_num]

/-- Witness for C1 at unit parameters with `L = 10` (Euler regime). -/
theorem C1_witness :
    is_Euler_column 1 1 1 10 1 1 = (Except.ok (PyVal.bool true), []) ∧
    cond true (Euler_buckling_critical_load 1 1 10 1)
        (Jhonson_buckling_critical_load 1 1 10 1 1 1) =
      (Except.ok (PyVal.num (1 * Real.pi ^ 2 * 1 * 1 / 10 ^ 2)), []) ∧
    (1:ℝ) ≠ 0 ∧
    SF_buckling 1 1 10 1 1 1 1 =
      (Except.ok (PyVal.num (1 * Real.pi ^ 2 * 1 * 1 / 10 ^ 2 / 1)),
       [] ++ (Msg.eulerFormulaUsed :: []) ++
         [Msg.criticalLoadReport (PyVal.num (1 * Real.pi ^ 2 * 1 * 1 / 10 ^ 2))]) := by
  have hp : cond true (Euler_buckling_critical_load 1 1 10 1)
      (Jhonson_buckling_critical_load 1 1 10 1 1 1) =
      (Except.ok (PyVal.num (1 * Real.pi ^ 2 * 1 * 1 / 10 ^ 2)), []) := by
    rw [Bool.cond_true]
    exact Euler_buckling_eq 1 1 10 1 (by norm_num)
  have hw := C1_SF_buckling_dispatch 1 1 10 1 1 1 1 true
    (1 * Real.pi ^ 2 * 1 * 1 / 10 ^ 2) [] [] is_Euler_ten hp one_ne_zero
  refine ⟨is_Euler_ten, hp, one_ne_zero, ?_⟩
  rw [hw, Bool.cond_true]

/-- C10: when the inner computation of `is_Euler_column` hits a zero yield
strength (the only input region where it catches its zero division and
returns None), `SF_buckling` treats the None as false, announces and uses
the Johnson formula, and returns a numeric safety factor instead of
reporting the failed regime decision. -/
theorem C10_SF_buckling_none_dispatch (E I L C A Sy F : ℝ)
    (hI : 0 < I) (hA : 0 < A) (hSy : Sy = 0) (hCE : C * E ≠ 0) (hF : F ≠ 0) :
    (is_Euler_column C E Sy L A I).1 = Except.ok PyVal.none ∧
    SF_buckling E I L C A Sy F =
      (Except.ok (PyVal.num
        (((Sy - (Sy * L / (2 * Real.pi * Real.sqrt (I / A))) ^ 2 * (1 / (C * E)))
          * A) / F)),
       [Msg.invalidInputData, Msg.johnsonFormulaUsed,
        Msg.criticalLoadReport (PyVal.num
          ((Sy - (Sy * L / (2 * Real.pi * Real.sqrt (I / A))) ^ 2 * (1 / (C * E)))
            * A))]) := by
  have hk : Real.sqrt (I / A) ≠ 0 := Real.sqrt_ne_zero'.mpr (div_pos hI hA)
  subst hSy
  have hie := is_Euler_column_zero_yield C E L A I hA.ne' hk
  have hj := Jhonson_buckling_eq E I L C A 0 hA.ne' hk hCE
  constructor
  · rw [hie]
  · simp [SF_buckling, SF_buckling_branch, hie, hj, hF, pyDiv_num_num]

/-- Witness for C10 at `E = I = L = C = A = F = 1`, `Sy = 0`. -/
theorem C10_witness :
    (0:ℝ) < 1 ∧ ((1:ℝ) * 1 ≠ 0) ∧ ((1:ℝ) ≠ 0) ∧
    (is_Euler_column 1 1 0 1 1 1).1 = Except.ok PyVal.none ∧
    SF_buckling 1 1 1 1 1 0 1 =
      (Except.ok (PyVal.num
        (((0 - (0 * 1 / (2 * Real.pi * Real.sqrt (1 / 1))) ^ 2 * (1 / (1 * 1)))
          * 1) / 1)),
       [Msg.invalidInputData, Msg.johnsonFormulaUsed,
        Msg.criticalLoadReport (PyVal.num
          ((0 - (0 * 1 / (2 * Real.pi * Real.sqrt (1 / 1))) ^ 2 * (1 / (1 * 1)))
            * 1))]) := by
  have h := C10_SF_buckling_none_dispatch 1 1 1 1 1 0 1 one_pos one_pos rfl
    (by norm_num) one_ne_zero
  exact ⟨one_pos, by norm_num, one_ne_zero, h.1, h.2⟩

lemma Euler_unit_zero_area (E I L C : ℝ) :
    Euler_unit_buckling_critical_load E I L C 0 =
      (Except.error PyErr.typeError, [Msg.invalidArea]) := by
  simp [Euler_unit_buckling_critical_load, radius_gyration_zero,
    slenderness_ratio_none]

lemma Euler_unit_zero_length (E I C A : ℝ) (hC : 0 < C) (hE : 0 < E)
    (hI : 0 < I) (hA : 0 < A) :
    Euler_unit_buckling_critical_load E I 0 C A = (Except.ok PyVal.inf, []) := by
  have hk : Real.sqrt (I / A) ≠ 0 := Real.sqrt_ne_zero'.mpr (div_pos hI hA)
  have hs : slenderness_ratio (PyVal.num 0) (PyVal.num (Real.sqrt (I / A))) true
      = (Except.ok (PyVal.num (0 / Real.sqrt (I / A))), []) :=
    slenderness_ratio_eq 0 _ true hk
  have hz : (0:ℝ) / Real.sqrt (I / A) = 0 := zero_div _
  have hq : C * Real.pi ^ 2 * E > 0 := by positivity
  have hdiv : pyDiv (PyVal.num (C * Real.pi ^ 2 * E)) (PyVal.num ((0:ℝ) ^ 2))
      true = Except.ok PyVal.inf := by
    rw [show ((0:ℝ) ^ 2) = 0 by norm_num, pyDiv_zero_np, if_pos hq]
  simp only [Euler_unit_buckling_critical_load,
    radius_gyration_eq I A hA.ne' (div_pos hI hA).le, hs, hz, pySq_num, hdiv,
    List.nil_append, List.append_nil]

lemma SF_compression_zero_area (Sa F : ℝ) :
    SF_compression Sa F 0 = (Except.ok PyVal.none, [Msg.invalidInputData]) := by
  simp [SF_compression]

lemma SF_compression_zero_load (Sa A : ℝ) (hA : A ≠ 0) :
    SF_compression Sa 0 A = (Except.ok PyVal.none, [Msg.invalidInputData]) := by
  simp [SF_compression, hA]

lemma SF_buckling_never_raises (E I L C A Sy F : ℝ) :
    ∃ v o, SF_buckling E I L C A Sy F = (Except.ok v, o) := by
  unfold SF_buckling
  rcases h1 : is_Euler_column C E Sy L A I with ⟨r1, o1⟩
  cases r1 with
  | error e => exact ⟨_, _, rfl⟩
  | ok bv =>
    dsimp only
    rcases h2 : SF_buckling_branch E I L C A Sy bv with ⟨r2, o2⟩
    cases r2 with
    | error e => exact ⟨_, _, rfl⟩
    | ok pv =>
      dsimp only
      cases h3 : pyDiv pv (PyVal.num F) (!bv.truthy) with
      | error e => exact ⟨_, _, rfl⟩
      | ok v => exact ⟨_, _, rfl⟩

/-- An invocation of one of the ten methods of the class, with its
arguments.  The `slender` invocation also records the dynamic type of its
radius-of-gyration argument (plain number or numpy float64), which the
running program distinguishes. -/
inductive Op where
  | areaReq (F S : ℝ)
  | eulerLoad (E I L C : ℝ)
  | radiusGyr (I A : ℝ)
  | slender (L k : PyVal) (knp : Bool)
  | eulerUnit (E I L C A : ℝ)
  | isEuler (C E Sy L A I : ℝ)
  | johnsonUnit (E I L C A Sy : ℝ)
  | johnsonLoad (E I L C A Sy : ℝ)
  | sfCompr (Sa F A : ℝ)
  | sfBuckl (E I L C A Sy F : ℝ)

/-- Outcome of an invocation. -/
noncomputable def Op.eval : Op → PyRes
  | .areaReq F S => area_req_compression F S
  | .eulerLoad E I L C => Euler_buckling_critical_load E I L C
  | .radiusGyr I A => radius_gyration I A
  | .slender L k knp => slenderness_ratio L k knp
  | .eulerUnit E I L C A => Euler_unit_buckling_critical_load E I L C A
  | .isEuler C E Sy L A I => is_Euler_column C E Sy L A I
  | .johnsonUnit E I L C A Sy => Jhonson_unit_buckling_critical_load E I L C A Sy
  | .johnsonLoad E I L C A Sy => Jhonson_buckling_critical_load E I L C A Sy
  | .sfCompr Sa F A => SF_compression Sa F A
  | .sfBuckl E I L C A Sy F => SF_buckling E I L C A Sy F

/-- A call of an operation against the only ambient state there is, the
console of previously printed messages: the call appends what it prints
and yields its outcome. -/
noncomputable def callOp (op : Op) (console : List Msg) :
    List Msg × Except PyErr PyVal :=
  (console ++ (Op.eval op).2, (Op.eval op).1)

/-- C8: every operation of the library is deterministic. Calling the same
operation twice in sequence with identical arguments yields identical
outcomes, the outcome of a call does not depend on the console state left
by earlier calls, and a repeated call prints the same messages again. -/
theorem C8_determinism (op : Op) (c c1 c2 : List Msg) :
    (callOp op (callOp op c).1).2 = (callOp op c).2 ∧
    (callOp op c1).2 = (callOp op c2).2 ∧
    (callOp op (callOp op c).1).1 = (callOp op c).1 ++ (Op.eval op).2 :=
  ⟨rfl, rfl, rfl⟩

/-- Counterexample to C5 at `radius_gyration(1, 0)` (a zero area in a
documented denominator position): the call does not surface a
DivisionByZero failure to the caller — it catches the zero division,
prints `Invalid area`, and returns None as an ordinary value. -/
theorem C5_counterexample :
    radius_gyration 1 0 = (Except.ok PyVal.none, [Msg.invalidArea]) ∧
    (radius_gyration 1 0).1 ≠ Except.error PyErr.zeroDivisionError ∧
    (radius_gyration 1 0).1 ≠ Except.error PyErr.typeError := by
  have h := radius_gyration_zero 1
  refine ⟨h, ?_, ?_⟩ <;> rw [h] <;> simp

/-- C5 amended: a zero documented denominator never yields an ordinary
finite result, but the behavior depends on the operation.  Where the zero
division is a plain-number division, the handler-wrapped operations catch
the ZeroDivisionError, print a message naming the invalid quantity, and
return None to the caller rather than surfacing a failure;
`area_req_compression`, which has no handler, raises ZeroDivisionError
(printing nothing), and `Jhonson_buckling_critical_load` surfaces the
swallowed unit-load failure as a TypeError.  Where the denominator is a
numpy float64 quantity — the zero slenderness in
`Euler_unit_buckling_critical_load` at `L = 0`, and `p_crit/F` with
`F = 0` on the Johnson branch of `SF_buckling` — the division silently
yields an IEEE infinity with no failure and no diagnostic. -/
theorem C5_zero_denominator_behavior (F S E I L C A Sy Sa : ℝ) :
    (S = 0 → area_req_compression F S =
      (Except.error PyErr.zeroDivisionError, [])) ∧
    (L = 0 → Euler_buckling_critical_load E I L C =
      (Except.ok PyVal.none, [Msg.invalidLength])) ∧
    (A = 0 → radius_gyration I A = (Except.ok PyVal.none, [Msg.invalidArea])) ∧
    (slenderness_ratio (PyVal.num L) (PyVal.num 0) false =
      (Except.ok PyVal.none, [Msg.invalidRadiusOfGyration])) ∧
    (A ≠ 0 → Real.sqrt (I / A) ≠ 0 →
      is_Euler_column C E 0 L A I =
        (Except.ok PyVal.none, [Msg.invalidInputData])) ∧
    (A ≠ 0 → Real.sqrt (I / A) ≠ 0 → C * E = 0 →
      Jhonson_unit_buckling_critical_load E I L C A Sy =
        (Except.ok PyVal.none, [Msg.invalidInputData])) ∧
    (A ≠ 0 → Real.sqrt (I / A) ≠ 0 → C * E = 0 →
      Jhonson_buckling_critical_load E I L C A Sy =
        (Except.error PyErr.typeError, [Msg.invalidInputData])) ∧
    (A = 0 → SF_compression Sa F A =
      (Except.ok PyVal.none, [Msg.invalidInputData])) ∧
    (A ≠ 0 → F = 0 → SF_compression Sa F A =
      (Except.ok PyVal.none, [Msg.invalidInputData])) ∧
    (0 < C → 0 < E → 0 < I → 0 < A →
      Euler_unit_buckling_critical_load E I 0 C A =
        (Except.ok PyVal.inf, [])) ∧
    (∀ p ob op,
      is_Euler_column C E Sy L A I = (Except.ok (PyVal.bool false), ob) →
      Jhonson_buckling_critical_load E I L C A Sy =
        (Except.ok (PyVal.num p), op) →
      0 < p →
      SF_buckling E I L C A Sy 0 =
        (Except.ok PyVal.inf,
         ob ++ (Msg.johnsonFormulaUsed :: op) ++
           [Msg.criticalLoadReport (PyVal.num p)])) := by
  refine ⟨fun hS => by simp [area_req_compression, hS],
    fun hL => by rw [hL]; exact Euler_buckling_zero E I C,
    fun hA => by rw [hA]; exact radius_gyration_zero I,
    slenderness_ratio_zero L,
    fun hA hk => is_Euler_column_zero_yield C E L A I hA hk,
    fun hA hk hCE => Jhonson_unit_zero_CE E I L C A Sy hA hk hCE,
    fun hA hk hCE => ?_,
    fun hA => by rw [hA]; exact SF_compression_zero_area Sa F,
    fun hA hF => by rw [hF]; exact SF_compression_zero_load Sa A hA,
    fun hC hE hI hA => Euler_unit_zero_length E I C A hC hE hI hA,
    fun p ob op hb hp hpos => ?_⟩
  · have h := Jhonson_unit_zero_CE E I L C A Sy hA hk hCE
    simp [Jhonson_buckling_critical_load, h, pyMul]
  · simp [SF_buckling, SF_buckling_branch, hb, hp, pyDiv, hpos]

/-- Witness for C5 at concrete zero denominators, including the two
silent-infinity paths. -/
theorem C5_witness :
    (0:ℝ) = 0 ∧ (1:ℝ) ≠ 0 ∧ ((0:ℝ) * 1 = 0) ∧ (0:ℝ) < 1 ∧
    area_req_compression 100 0 = (Except.error PyErr.zeroDivisionError, []) ∧
    Euler_buckling_critical_load 1 1 0 1 =
      (Except.ok PyVal.none, [Msg.invalidLength]) ∧
    is_Euler_column 0 1 0 1 1 1 =
      (Except.ok PyVal.none, [Msg.invalidInputData]) ∧
    Jhonson_buckling_critical_load 1 1 1 0 1 1 =
      (Except.error PyErr.typeError, [Msg.invalidInputData]) ∧
    SF_compression 1 0 1 = (Except.ok PyVal.none, [Msg.invalidInputData]) ∧
    Euler_unit_buckling_critical_load 1 1 0 1 1 = (Except.ok PyVal.inf, []) ∧
    SF_buckling 1 1 1 1 1 1 0 =
      (Except.ok PyVal.inf,
       [] ++ (Msg.johnsonFormulaUsed :: ([] : List Msg)) ++
         [Msg.criticalLoadReport (PyVal.num
           ((1 - (1 * 1 / (2 * Real.pi * Real.sqrt (1 / 1))) ^ 2 * (1 / (1 * 1)))
             * 1))]) := by
  have hj : Jhonson_buckling_critical_load 1 1 1 1 1 1 =
      (Except.ok (PyVal.num
        ((1 - (1 * 1 / (2 * Real.pi * Real.sqrt (1 / 1))) ^ 2 * (1 / (1 * 1)))
          * 1)), []) :=
    Jhonson_buckling_eq 1 1 1 1 1 1 one_ne_zero sqrt_one_one_ne (by norm_num)
  have hpos : (0:ℝ) <
      (1 - (1 * 1 / (2 * Real.pi * Real.sqrt (1 / 1))) ^ 2 * (1 / (1 * 1))) * 1 := by
    have e1 : Real.sqrt ((1:ℝ) / 1) = 1 := by
      rw [div_one]
      exact Real.sqrt_one
    rw [e1]
    have ha : (0:ℝ) < 2 * Real.pi * 1 := by positivity
    have hb : (1:ℝ) * 1 / (2 * Real.pi * 1) < 1 := by
      rw [div_lt_one ha]
      nlinarith [Real.pi_gt_three]
    have hc : (0:ℝ) ≤ 1 * 1 / (2 * Real.pi * 1) := by positivity
    nlinarith [hb, hc]
  exact ⟨rfl, one_ne_zero, by norm_num, one_pos,
    (C5_zero_denominator_behavior 100 0 1 1 1 1 1 1 1).1 rfl,
    (C5_zero_denominator_behavior 1 1 1 1 0 1 1 1 1).2.1 rfl,
    (C5_zero_denominator_behavior 1 1 1 1 1 0 1 1 1).2.2.2.2.1 one_ne_zero
      sqrt_one_one_ne,
    (C5_zero_denominator_behavior 1 1 1 1 1 0 1 1 1).2.2.2.2.2.2.1 one_ne_zero
      sqrt_one_one_ne (by norm_num),
    (C5_zero_denominator_behavior 0 1 1 1 1 1 1 1 1).2.2.2.2.2.2.2.2.1
      one_ne_zero rfl,
    (C5_zero_denominator_behavior 1 1 1 1 0 1 1 1 1).2.2.2.2.2.2.2.2.2.1
      one_pos one_pos one_pos one_pos,
    (C5_zero_denominator_behavior 1 1 1 1 1 1 1 1 1).2.2.2.2.2.2.2.2.2.2 _ [] []
      is_Euler_one hj hpos⟩

/-- Counterexample to C9 at `is_Euler_column(1, 1, 1, 1, 0, 1)` (zero
area): a zero denominator is encountered (the inner `radius_gyration`
catches it and prints `Invalid area`), yet the call raises a TypeError to
the caller instead of printing a diagnostic and returning None. -/
theorem C9_counterexample :
    is_Euler_column 1 1 1 1 0 1 =
      (Except.error PyErr.typeError, [Msg.invalidArea]) :=
  is_Euler_column_zero_area 1 1 1 1 1

/-- C9 amended: the zero-division handlers only ever see a
ZeroDivisionError, which a zero denominator raises exactly when the
division is a plain-number division: in those cases
(`Euler_buckling_critical_load` at `L = 0`, `radius_gyration` at `A = 0`,
`slenderness_ratio` called directly with a plain zero radius,
`is_Euler_column` at `Sy = 0`, `Jhonson_unit_buckling_critical_load` at
`C*E = 0`, `SF_compression`, and the Euler branch of `SF_buckling` at
`F = 0`) the call prints a diagnostic and returns None without raising.
When the denominator is a numpy float64 quantity (the slenderness in
`Euler_unit_buckling_critical_load`, `2*pi*k` in
`Jhonson_unit_buckling_critical_load`, `p_crit/F` on the Johnson branch
of `SF_buckling`), a zero denominator instead silently yields an IEEE
special value: nothing is raised, printed, or returned as None.  And when
an inner wrapped call has swallowed a zero division and returned None,
the subsequent arithmetic on None raises a TypeError that the
ZeroDivisionError handler does not catch and that propagates to the
caller — except in `SF_buckling`, whose catch-all handler means the call
never raises. -/
theorem C9_handler_behavior (E I L C A Sy F Sa k : ℝ) :
    (L = 0 → Euler_buckling_critical_load E I L C =
      (Except.ok PyVal.none, [Msg.invalidLength])) ∧
    (A = 0 → radius_gyration I A = (Except.ok PyVal.none, [Msg.invalidArea])) ∧
    (k = 0 → slenderness_ratio (PyVal.num L) (PyVal.num k) false =
      (Except.ok PyVal.none, [Msg.invalidRadiusOfGyration])) ∧
    (A ≠ 0 → Real.sqrt (I / A) ≠ 0 → Sy = 0 →
      is_Euler_column C E Sy L A I =
        (Except.ok PyVal.none, [Msg.invalidInputData])) ∧
    (A ≠ 0 → Real.sqrt (I / A) ≠ 0 → C * E = 0 →
      Jhonson_unit_buckling_critical_load E I L C A Sy =
        (Except.ok PyVal.none, [Msg.invalidInputData])) ∧
    (A = 0 → SF_compression Sa F A =
      (Except.ok PyVal.none, [Msg.invalidInputData])) ∧
    (0 < C → 0 < E → 0 < I → 0 < A →
      Euler_unit_buckling_critical_load E I 0 C A =
        (Except.ok PyVal.inf, [])) ∧
    (0 < A → 0 < Sy * L → 0 < C * E →
      Jhonson_unit_buckling_critical_load E 0 L C A Sy =
        (Except.ok PyVal.ninf, [])) ∧
    (A = 0 → Euler_unit_buckling_critical_load E I L C A =
      (Except.error PyErr.typeError, [Msg.invalidArea])) ∧
    (A = 0 → is_Euler_column C E Sy L A I =
      (Except.error PyErr.typeError, [Msg.invalidArea])) ∧
    (A = 0 → Jhonson_unit_buckling_critical_load E I L C A Sy =
      (Except.error PyErr.typeError, [Msg.invalidArea])) ∧
    (∀ p ob op,
      is_Euler_column C E Sy L A I = (Except.ok (PyVal.bool true), ob) →
      Euler_buckling_critical_load E I L C = (Except.ok (PyVal.num p), op) →
      SF_buckling E I L C A Sy 0 =
        (Except.ok PyVal.none,
         ob ++ (Msg.eulerFormulaUsed :: op) ++
           [Msg.criticalLoadReport (PyVal.num p), Msg.invalidInputData])) ∧
    (∃ v o, SF_buckling E I L C A Sy F = (Except.ok v, o)) := by
  refine ⟨fun hL => by rw [hL]; exact Euler_buckling_zero E I C,
    fun hA => by rw [hA]; exact radius_gyration_zero I,
    fun hk => by rw [hk]; exact slenderness_ratio_zero L,
    fun hA hk hSy => by
      rw [hSy]; exact is_Euler_column_zero_yield C E L A I hA hk,
    fun hA hk hCE => Jhonson_unit_zero_CE E I L C A Sy hA hk hCE,
    fun hA => by rw [hA]; exact SF_compression_zero_area Sa F,
    fun hC hE hI hA => Euler_unit_zero_length E I C A hC hE hI hA,
    fun hA hSyL hCE => Jhonson_unit_zero_inertia E L C A Sy hA hSyL hCE,
    fun hA => by rw [hA]; exact Euler_unit_zero_area E I L C,
    fun hA => by rw [hA]; exact is_Euler_column_zero_area C E Sy L I,
    fun hA => by rw [hA]; exact Jhonson_unit_zero_area E I L C Sy,
    fun p ob op hb hp => ?_,
    SF_buckling_never_raises E I L C A Sy F⟩
  simp [SF_buckling, SF_buckling_branch, hb, hp, pyDiv]

/-- Witness for C9 at concrete inputs: plain-number zero denominators
print and return None, numpy zero denominators silently yield special
values, a swallowed inner failure raises TypeError, and the catch-all of
`SF_buckling` yields a non-raising outcome even then. -/
theorem C9_witness :
    (0:ℝ) = 0 ∧ (1:ℝ) ≠ 0 ∧ (0:ℝ) < 1 ∧
    Euler_buckling_critical_load 1 1 0 1 =
      (Except.ok PyVal.none, [Msg.invalidLength]) ∧
    slenderness_ratio (PyVal.num 2) (PyVal.num 0) false =
      (Except.ok PyVal.none, [Msg.invalidRadiusOfGyration]) ∧
    is_Euler_column 1 1 0 1 1 1 =
      (Except.ok PyVal.none, [Msg.invalidInputData]) ∧
    Jhonson_unit_buckling_critical_load 1 0 1 1 1 1 =
      (Except.ok PyVal.ninf, []) ∧
    Euler_unit_buckling_critical_load 1 1 1 1 0 =
      (Except.error PyErr.typeError, [Msg.invalidArea]) ∧
    SF_buckling 1 1 10 1 1 1 0 =
      (Except.ok PyVal.none,
       [] ++ (Msg.eulerFormulaUsed :: ([] : List Msg)) ++
         [Msg.criticalLoadReport (PyVal.num (1 * Real.pi ^ 2 * 1 * 1 / 10 ^ 2)),
          Msg.invalidInputData]) ∧
    (∃ v o, SF_buckling 1 1 1 1 0 1 1 = (Except.ok v, o)) := by
  have hp : Euler_buckling_critical_load 1 1 10 1 =
      (Except.ok (PyVal.num (1 * Real.pi ^ 2 * 1 * 1 / 10 ^ 2)), []) :=
    Euler_buckling_eq 1 1 10 1 (by norm_num)
  exact ⟨rfl, one_ne_zero, one_pos,
    (C9_handler_behavior 1 1 0 1 1 1 1 1 1).1 rfl,
    (C9_handler_behavior 1 1 2 1 1 1 1 1 0).2.2.1 rfl,
    (C9_handler_behavior 1 1 1 1 1 0 1 1 1).2.2.2.1 one_ne_zero
      sqrt_one_one_ne rfl,
    (C9_handler_behavior 1 0 1 1 1 1 1 1 1).2.2.2.2.2.2.2.1 one_pos
      (by norm_num) (by norm_num),
    (C9_handler_behavior 1 1 1 1 0 1 1 1 1).2.2.2.2.2.2.2.2.1 rfl,
    (C9_handler_behavior 1 1 10 1 1 1 1 1 1).2.2.2.2.2.2.2.2.2.2.2.1 _ [] []
      is_Euler_ten hp,
    (C9_handler_behavior 1 1 1 1 0 1 1 1 1).2.2.2.2.2.2.2.2.2.2.2.2⟩

end ColumnDesign
